import Mathlib

/-!
Verification of the live-thread object model of this repository
(`praw/models/reddit/live.py`) against its design specification.

The embedding below translates the Python classes into executable Lean
definitions.  Python dicts used as attribute stores are modelled as
association lists with first-match lookup and in-place replacement;
network effects (fetches, posts) are made explicit as data returned by
the modelled operations.  Parts of the repository that the file under
`src/` depends on but that are not themselves under `src/`
(`RedditBase`, `ListingGenerator`, `Redditor`) are modelled from the
specification and marked as such in their doc comments.
-/

set_option autoImplicit false

/-- First-match lookup in an association list (Python dict read). -/
def alookup {α : Type} : List (String × α) → String → Option α
  | [], _ => none
  | p :: rest, k => if p.1 = k then some p.2 else alookup rest k

/-- Replace the value at a key, or append the binding (Python dict write). -/
def aset {α : Type} : List (String × α) → String → α → List (String × α)
  | [], k, v => [(k, v)]
  | p :: rest, k, v => if p.1 = k then (k, v) :: rest else p :: aset rest k v

theorem alookup_aset_self {α : Type} (m : List (String × α)) (k : String) (v : α) :
    alookup (aset m k v) k = some v := by
  induction m with
  | nil => simp [aset, alookup]
  | cons p rest ih =>
      by_cases h : p.1 = k
      · simp [aset, alookup, h]
      · simp [aset, alookup, h, ih]

theorem alookup_aset_ne {α : Type} (m : List (String × α)) (k k' : String) (v : α)
    (h : k' ≠ k) : alookup (aset m k v) k' = alookup m k' := by
  have h2 : ¬ (k = k') := fun hh => h hh.symm
  induction m with
  | nil => simp [aset, alookup, h2]
  | cons p rest ih =>
      by_cases hp : p.1 = k
      · have h3 : ¬ (p.1 = k') := by rw [hp]; exact h2
        simp [aset, alookup, hp, h2, h3]
      · simp [aset, alookup, hp, ih]

/-- Attribute values stored on a `LiveUpdate`: raw strings, booleans, and
`Redditor`-like reference objects (modelled by their displayed name,
`Redditor.STR_FIELD = 'name'`). -/
inductive UVal where
  | str (s : String)
  | boolV (b : Bool)
  | redditor (name : String)
deriving DecidableEq, Repr

/-- The name a value contributes when passed to `Redditor(reddit, name=value)`:
a raw string is the name itself; a redditor reference displays its own name.
(The boolean case never occurs on the author path in the source.) -/
def UVal.asName : UVal → String
  | .str s => s
  | .boolV b => cond b "True" "False"
  | .redditor n => n

/-- `LiveThread` (`live.py`): its populated attribute dict plus the two
lazily-created relationship-helper caches (`_contrib`, `_contributor`,
both initialised to `None` by `__init__`).  Helper instances are
represented by identity tokens (`Nat`) so that "identical instance"
is expressible. -/
structure LiveThread where
  attrs : List (String × String)
  contribCache : Option Nat
  contributorCache : Option Nat
deriving DecidableEq, Repr

/-- Python truthiness of the optional `id` argument (`bool(id)`). -/
def truthyOptStr : Option String → Bool
  | none => false
  | some s => !s.isEmpty

/-- Python truthiness of the optional `_data` argument (`bool(_data)`). -/
def truthyOptMap {α : Type} : Option (List α) → Bool
  | none => false
  | some l => !l.isEmpty

/-- `LiveThread.__init__(reddit, id=None, _data=None)`: raises `TypeError`
(modelled as `Except.error ()`) when `bool(id) == bool(_data)`; otherwise
populates attributes from `_data` (per the spec, a full object is populated
from the decoded payload) and then sets `self.id = id` when `id` is truthy.
The helper caches start empty. -/
def LiveThread.init (id? : Option String) (d? : Option (List (String × String))) :
    Except Unit LiveThread :=
  if truthyOptStr id? = truthyOptMap d? then Except.error ()
  else
    let base := d?.getD []
    let attrs :=
      match id? with
      | some i => if i.isEmpty then base else aset base "id" i
      | none => base
    Except.ok { attrs := attrs, contribCache := none, contributorCache := none }

/-- The thread produced by the id-only construction path. -/
def LiveThread.ofId (x : String) : LiveThread :=
  { attrs := [("id", x)], contribCache := none, contributorCache := none }

theorem LiveThread.init_ofId (x : String) (hx : x.isEmpty = false) :
    LiveThread.init (some x) none = Except.ok (LiveThread.ofId x) := by
  simp [LiveThread.init, truthyOptStr, truthyOptMap, hx, LiveThread.ofId, aset]

/-- C10: the `LiveThread` constructor's both-or-neither check is
truthiness-based, so an empty-string id with no payload raises `TypeError`:
the id-only path accepts exactly the nonempty ids. -/
theorem liveThread_init_empty_id_raises :
    LiveThread.init (some "") none = Except.error () ∧
    ∀ s : String, (LiveThread.init (some s) none = Except.error ()) ↔ s = "" := by
  refine ⟨rfl, ?_⟩
  intro s
  constructor
  · intro h
    by_cases hs : s.isEmpty
    · exact (String.isEmpty_iff s).mp hs
    · rw [LiveThread.init_ofId s (by simpa using hs)] at h
      cases h
  · intro h
    subst h
    rfl

/-- `LiveUpdate` (`live.py`): its populated attribute dict, the `_fetched`
flag, and the `_thread` back-reference (absent when constructed from a
payload; the listing code stamps it afterwards). -/
structure LiveUpdate where
  attrs : List (String × UVal)
  fetched : Bool
  thread : Option LiveThread
deriving DecidableEq, Repr

/-- `LiveUpdate.__setattr__`: every attribute assignment is intercepted;
a value assigned to `author` is first wrapped into a `Redditor` reference
(`Redditor(self._reddit, name=value)`); any other attribute stores the
value unchanged. -/
def LiveUpdate.setAttr (attrs : List (String × UVal)) (k : String) (v : UVal) :
    List (String × UVal) :=
  aset attrs k (if k = "author" then UVal.redditor v.asName else v)

/-- Modelled from the spec: `RedditBase.__init__` (not under `src/`)
populates a full object from its decoded payload; per the spec the
`author` coercion applies "at construction from payload or via any later
assignment", so each payload field goes through the attribute-set path. -/
def LiveUpdate.fromData (d : List (String × UVal)) : List (String × UVal) :=
  d.foldl (fun m p => LiveUpdate.setAttr m p.1 p.2) []

/-- The `_data is not None` branch of `LiveUpdate.__init__`: a full update,
marked `_fetched = True`, with no `_thread` back-reference yet. -/
def LiveUpdate.ofData (d : List (String × UVal)) : LiveUpdate :=
  { attrs := LiveUpdate.fromData d, fetched := true, thread := none }

/-- `LiveUpdate.__init__(reddit, thread_id=None, update_id=None, _data=None)`:
when `_data is not None`, builds a full update (no error check is reached);
otherwise, when both ids are truthy, builds a stub holding a fresh
`LiveThread(reddit, thread_id)` back-reference and `id = update_id`, also
marked `_fetched = True`; otherwise raises `TypeError`. -/
def LiveUpdate.init (threadId updateId : Option String)
    (d? : Option (List (String × UVal))) : Except Unit LiveUpdate :=
  match d? with
  | some d => Except.ok (LiveUpdate.ofData d)
  | none =>
      match threadId, updateId with
      | some tid, some uid =>
          if !tid.isEmpty && !uid.isEmpty then
            match LiveThread.init (some tid) none with
            | Except.ok th =>
                Except.ok { attrs := LiveUpdate.setAttr [] "id" (UVal.str uid),
                            fetched := true, thread := some th }
            | Except.error e => Except.error e
          else Except.error ()
      | _, _ => Except.error ()

/-- A value compared against a `LiveThread` by `__eq__`: a raw string, a
thread, a `LiveUpdate` (a different concrete kind), or any other object. -/
inductive RValue where
  | str (s : String)
  | thread (t : LiveThread)
  | updateObj (u : LiveUpdate)
  | other
deriving Repr

/-- `str(self)` for a `LiveThread` (`STR_FIELD = 'id'`; `__str__` from the
base class returns the designated string field).  `none` models the
`AttributeError` raised when the field is missing. -/
def LiveThread.str (t : LiveThread) : Option String :=
  alookup t.attrs "id"

/-- `LiveThread.__eq__`: a raw string compares against `str(self)`; a value
of the same concrete kind compares by string form; any other kind is
unequal.  `none` models a raised error while evaluating `str`. -/
def LiveThread.eq (t : LiveThread) : RValue → Option Bool
  | RValue.str s => (LiveThread.str t).map (fun ts => s == ts)
  | RValue.thread t2 => do
      let a ← LiveThread.str t
      let b ← LiveThread.str t2
      pure (a == b)
  | RValue.updateObj _ => some false
  | RValue.other => some false

/-- `LiveThread.__hash__`: `hash(self.__class__.__name__) ^ hash(str(self))`. -/
def LiveThread.hash (t : LiveThread) : Option UInt64 :=
  (LiveThread.str t).map (fun s => Hashable.hash "LiveThread" ^^^ Hashable.hash s)

theorem liveThread_ofId_str (x : String) : (LiveThread.ofId x).str = some x := by
  simp [LiveThread.ofId, LiveThread.str, alookup]

/-- C3: for every nonempty id `X`, `Thread(X) == Thread(X)`,
`Thread(X) == X`, and hashing is deterministic; equality holds exactly for
a raw string equal to the thread's string form or a thread of the same kind
with equal string form (never for an update or another kind), and equal
threads hash equal. -/
theorem liveThread_eq_hash_contract (x : String) (hx : x.isEmpty = false) :
    LiveThread.init (some x) none = Except.ok (LiveThread.ofId x) ∧
    (LiveThread.ofId x).eq (RValue.thread (LiveThread.ofId x)) = some true ∧
    (LiveThread.ofId x).eq (RValue.str x) = some true ∧
    (LiveThread.ofId x).hash = (LiveThread.ofId x).hash ∧
    (∀ s, (LiveThread.ofId x).eq (RValue.str s) = some true ↔ s = x) ∧
    (∀ t2, (LiveThread.ofId x).eq (RValue.thread t2) = some true ↔
      LiveThread.str t2 = some x) ∧
    (∀ t2, (LiveThread.ofId x).eq (RValue.thread t2) = some true →
      (LiveThread.ofId x).hash = LiveThread.hash t2) ∧
    (∀ u, (LiveThread.ofId x).eq (RValue.updateObj u) = some false) ∧
    (LiveThread.ofId x).eq RValue.other = some false := by
  have hstr : (LiveThread.ofId x).str = some x := liveThread_ofId_str x
  have hthread : ∀ t2, (LiveThread.ofId x).eq (RValue.thread t2) = some true ↔
      LiveThread.str t2 = some x := by
    intro t2
    cases h2 : LiveThread.str t2 with
    | none => simp [LiveThread.eq, hstr, h2]
    | some y =>
        simp [LiveThread.eq, hstr, h2]
        constructor
        · intro h; exact h.symm
        · intro h; exact h.symm
  refine ⟨LiveThread.init_ofId x hx, ?_, ?_, rfl, ?_, hthread, ?_, ?_, ?_⟩
  · simp [LiveThread.eq, hstr]
  · simp [LiveThread.eq, hstr]
  · intro s
    simp [LiveThread.eq, hstr]
  · intro t2 h
    have h2 : LiveThread.str t2 = some x := (hthread t2).mp h
    simp [LiveThread.hash, hstr, h2]
  · intro u
    rfl
  · rfl

/-- C3 witness: the contract instantiated at the id `"abc"`. -/
theorem liveThread_eq_hash_contract_witness :
    (LiveThread.ofId "abc").eq (RValue.thread (LiveThread.ofId "abc")) = some true ∧
    (LiveThread.ofId "abc").eq (RValue.str "abc") = some true ∧
    (LiveThread.ofId "abc").hash = (LiveThread.ofId "abc").hash :=
  ⟨(liveThread_eq_hash_contract "abc" rfl).2.1,
   (liveThread_eq_hash_contract "abc" rfl).2.2.1,
   (liveThread_eq_hash_contract "abc" rfl).2.2.2.1⟩

/-- C2 counterexample: `LiveUpdate.__init__` given both the id pair and a
pre-decoded payload does not raise — the `_data is not None` branch is taken
first and the payload silently wins, so the claimed `TypeError` never occurs. -/
theorem liveUpdate_init_both_counterexample :
    LiveUpdate.init (some "t1") (some "u1") (some [("id", UVal.str "u1")]) =
      Except.ok (LiveUpdate.ofData [("id", UVal.str "u1")]) ∧
    LiveUpdate.init (some "t1") (some "u1") (some [("id", UVal.str "u1")]) ≠
      Except.error () := by
  constructor
  · rfl
  · intro h
    cases h

/-- C2 amended: supplying both a (truthy) id and a (truthy) payload, or
neither, to `LiveThread.__init__` raises `TypeError` synchronously, and
supplying neither to `LiveUpdate.__init__` raises `TypeError`; but
`LiveUpdate.__init__` given both ids and a payload does not raise — the
payload takes precedence.  All checks fire before any network activity
(the modelled constructors consult no server). -/
theorem construction_error_amended :
    (∀ (i : String) (d : List (String × String)), i.isEmpty = false → d ≠ [] →
      LiveThread.init (some i) (some d) = Except.error ()) ∧
    LiveThread.init none none = Except.error () ∧
    LiveUpdate.init none none none = Except.error () ∧
    (∀ (t u : Option String) (d : List (String × UVal)),
      LiveUpdate.init t u (some d) = Except.ok (LiveUpdate.ofData d)) := by
  refine ⟨?_, rfl, rfl, ?_⟩
  · intro i d hi hd
    have hd2 : d.isEmpty = false := by
      cases d with
      | nil => exact absurd rfl hd
      | cons p rest => rfl
    simp [LiveThread.init, truthyOptStr, truthyOptMap, hi, hd2]
  · intro t u d
    rfl

/-- C2 witness: the amended theorem applied to a concrete both-supplied
`LiveThread` construction. -/
theorem construction_error_amended_witness :
    LiveThread.init (some "a") (some [("k", "v")]) = Except.error () :=
  construction_error_amended.1 "a" [("k", "v")] rfl (by simp)

/-- `LiveThread.contrib` property: returns the cached
`LiveThreadContribution` when present, otherwise creates one (identified
by the fresh token) and stores it.  The state after the access is returned
alongside the instance. -/
def LiveThread.contrib (t : LiveThread) (fresh : Nat) : Nat × LiveThread :=
  match t.contribCache with
  | some c => (c, t)
  | none => (fresh, { t with contribCache := some fresh })

/-- `LiveThread.contributor` property: same memoization pattern for the
`LiveContributorRelationship` helper. -/
def LiveThread.contributor (t : LiveThread) (fresh : Nat) : Nat × LiveThread :=
  match t.contributorCache with
  | some c => (c, t)
  | none => (fresh, { t with contributorCache := some fresh })

/-- C9: repeated accesses of `contrib` (resp. `contributor`) return the
identical helper instance: the second access returns exactly the instance
created or found by the first, ignoring the fresh token (nothing is
re-created), and leaves the thread unchanged; moreover a freshly
constructed thread has empty caches, so the helper is created on first
access. -/
theorem liveThread_helper_memoized :
    (∀ (t : LiveThread) (f1 f2 : Nat),
      LiveThread.contrib (LiveThread.contrib t f1).2 f2 =
        ((LiveThread.contrib t f1).1, (LiveThread.contrib t f1).2)) ∧
    (∀ (t : LiveThread) (f1 f2 : Nat),
      LiveThread.contributor (LiveThread.contributor t f1).2 f2 =
        ((LiveThread.contributor t f1).1, (LiveThread.contributor t f1).2)) ∧
    (∀ x, (LiveThread.ofId x).contribCache = none ∧
      (LiveThread.ofId x).contributorCache = none ∧
      (LiveThread.ofId x).contrib 7 = (7, { LiveThread.ofId x with contribCache := some 7 })) := by
  refine ⟨?_, ?_, ?_⟩
  · intro t f1 f2
    cases h : t.contribCache with
    | some c => simp [LiveThread.contrib, h]
    | none => simp [LiveThread.contrib, h]
  · intro t f1 f2
    cases h : t.contributorCache with
    | some c => simp [LiveThread.contributor, h]
    | none => simp [LiveThread.contributor, h]
  · intro x
    exact ⟨rfl, rfl, rfl⟩

/-- The author slot of an attribute store holds a redditor reference or
nothing. -/
def authorObjectified (m : List (String × UVal)) : Prop :=
  ∀ v, alookup m "author" = some v → ∃ n, v = UVal.redditor n

theorem setAttr_authorObjectified (m : List (String × UVal)) (k : String) (v : UVal)
    (hm : authorObjectified m) : authorObjectified (LiveUpdate.setAttr m k v) := by
  intro w hw
  by_cases hk : k = "author"
  · subst hk
    rw [LiveUpdate.setAttr] at hw
    rw [alookup_aset_self] at hw
    simp at hw
    exact ⟨v.asName, hw.symm⟩
  · rw [LiveUpdate.setAttr, alookup_aset_ne _ _ _ _ (fun hh => hk hh.symm)] at hw
    exact hm w hw

/-- C7: on every attribute-set path of a `LiveUpdate`, a value assigned to
`author` is stored as a `Redditor` reference built from it (assigning the
string `"spez"` stores a reference displaying `"spez"`), never the raw
value; consequently any update built from a payload — the constructor
folds the payload through the same set path — holds only redditor
references in its `author` slot. -/
theorem liveUpdate_author_coercion :
    (∀ (m : List (String × UVal)) (v : UVal),
      alookup (LiveUpdate.setAttr m "author" v) "author" =
        some (UVal.redditor v.asName)) ∧
    (∀ (m : List (String × UVal)) (s : String),
      alookup (LiveUpdate.setAttr m "author" (UVal.str s)) "author" =
        some (UVal.redditor s)) ∧
    (∀ (d : List (String × UVal)) (v : UVal),
      alookup (LiveUpdate.ofData d).attrs "author" = some v →
        ∃ n, v = UVal.redditor n) := by
  have hset : ∀ (m : List (String × UVal)) (v : UVal),
      alookup (LiveUpdate.setAttr m "author" v) "author" =
        some (UVal.redditor v.asName) := by
    intro m v
    rw [LiveUpdate.setAttr]
    simp [alookup_aset_self]
  refine ⟨hset, fun m s => hset m (UVal.str s), ?_⟩
  intro d
  have main : ∀ (l : List (String × UVal)) (m : List (String × UVal)),
      authorObjectified m →
      authorObjectified (l.foldl (fun acc p => LiveUpdate.setAttr acc p.1 p.2) m) := by
    intro l
    induction l with
    | nil => intro m hm; exact hm
    | cons p rest ih =>
        intro m hm
        exact ih (LiveUpdate.setAttr m p.1 p.2) (setAttr_authorObjectified m p.1 p.2 hm)
  have hnil : authorObjectified ([] : List (String × UVal)) := by
    intro v hv
    cases hv
  exact main d [] hnil

/-- C7 witness: constructing an update from a payload assigning the raw
string `"spez"` to `author` stores a redditor reference. -/
theorem liveUpdate_author_coercion_witness :
    ∃ n, UVal.redditor "spez" = UVal.redditor n :=
  liveUpdate_author_coercion.2.2 [("author", UVal.str "spez")]
    (UVal.redditor "spez") (by decide)

/-- The result of an attribute access: a value found in the populated
attribute dict (no network), a value obtained by triggering the lazy
fetch, or a raised `AttributeError`. -/
inductive GetResult where
  | val (v : UVal)
  | fetchedVal (v : UVal)
  | attrError
deriving DecidableEq, Repr

/-- Modelled from the spec: `RedditBase.__getattr__` (not under `src/`).
An attribute present in the populated dict is returned directly; otherwise
an object not yet fetched triggers exactly one fetch of its full payload
(`server`) and retries, while an object already marked fetched raises
`AttributeError`. -/
def LiveUpdate.getAttr (server : List (String × UVal)) (u : LiveUpdate)
    (k : String) : GetResult :=
  match alookup u.attrs k with
  | some v => GetResult.val v
  | none =>
      if u.fetched then GetResult.attrError
      else
        match alookup server k with
        | some v => GetResult.fetchedVal v
        | none => GetResult.attrError

/-- `LiveThread.__getitem__(update_id)`: returns
`LiveUpdate(self._reddit, self.id, update_id)` — a thin stub; no network
is consulted (the modelled constructor takes no server argument). -/
def LiveThread.getItem (t : LiveThread) (updateId : String) :
    Except Unit LiveUpdate :=
  match LiveThread.str t with
  | some tid => LiveUpdate.init (some tid) (some updateId) none
  | none => Except.error ()

/-- C8: an update obtained through `thread[update_id]` is built without any
fetch, exposes its scoping fields (`id` and the `thread` back-reference),
and every other attribute access raises `AttributeError` instead of
triggering a fetch (for every server state); an update built from a listing
payload, by contrast, answers accesses to its payload fields directly. -/
theorem liveThread_getItem_stub (t : LiveThread) (tid uid : String)
    (ht : LiveThread.str t = some tid) (htid : tid.isEmpty = false)
    (huid : uid.isEmpty = false) :
    ∃ u, LiveThread.getItem t uid = Except.ok u ∧
      u.attrs = [("id", UVal.str uid)] ∧
      u.fetched = true ∧
      u.thread = some (LiveThread.ofId tid) ∧
      (∀ server, LiveUpdate.getAttr server u "id" = GetResult.val (UVal.str uid)) ∧
      (∀ server k, k ≠ "id" → LiveUpdate.getAttr server u k = GetResult.attrError) ∧
      (∀ server d k v, alookup (LiveUpdate.ofData d).attrs k = some v →
        LiveUpdate.getAttr server (LiveUpdate.ofData d) k = GetResult.val v) := by
  refine ⟨{ attrs := [("id", UVal.str uid)], fetched := true,
            thread := some (LiveThread.ofId tid) }, ?_, rfl, rfl, rfl, ?_, ?_, ?_⟩
  · rw [LiveThread.getItem, ht]
    simp only [LiveUpdate.init, LiveThread.init_ofId tid htid]
    simp [htid, huid, LiveUpdate.setAttr, aset]
  · intro server
    simp [LiveUpdate.getAttr, alookup]
  · intro server k hk
    have h2 : ¬ ("id" = k) := fun hh => hk hh.symm
    simp [LiveUpdate.getAttr, alookup, h2]
  · intro server d k v hv
    simp [LiveUpdate.getAttr, hv]

/-- C8 witness: the stub contract instantiated at thread id `"t1"` and
update id `"u1"`. -/
theorem liveThread_getItem_stub_witness :
    ∃ u, LiveThread.getItem (LiveThread.ofId "t1") "u1" = Except.ok u ∧
      u.attrs = [("id", UVal.str "u1")] ∧
      u.fetched = true ∧
      u.thread = some (LiveThread.ofId "t1") ∧
      (∀ server, LiveUpdate.getAttr server u "id" = GetResult.val (UVal.str "u1")) ∧
      (∀ server k, k ≠ "id" → LiveUpdate.getAttr server u k = GetResult.attrError) ∧
      (∀ server d k v, alookup (LiveUpdate.ofData d).attrs k = some v →
        LiveUpdate.getAttr server (LiveUpdate.ofData d) k = GetResult.val v) :=
  liveThread_getItem_stub (LiveThread.ofId "t1") "t1" "u1"
    (liveThread_ofId_str "t1") rfl rfl

/-- The set built by `LiveContributorRelationship._handle_permissions`:
`None` becomes the singleton set of `'all'`; a list becomes its set of
elements (modelled as the deduplicated list; iteration order is
quantified separately, since Python set order is arbitrary). -/
def LiveContributorRelationship.permsSet : Option (List String) → List String
  | none => ["all"]
  | some ps => ps.dedup

/-- The join step of `_handle_permissions`: comma-join of a `+name` token
per element, in the set's iteration order. -/
def LiveContributorRelationship.handle_permissions (iter : List String) : String :=
  String.intercalate "," (iter.map (fun x => "+" ++ x))

/-- The request body built by `LiveContributorRelationship.invite`. -/
def LiveContributorRelationship.inviteData (name : String) (iter : List String) :
    List (String × String) :=
  [("name", name), ("type", "liveupdate_contributor_invite"),
   ("permissions", LiveContributorRelationship.handle_permissions iter)]

/-- The request body built by `LiveContributorRelationship.update`. -/
def LiveContributorRelationship.updateData (name : String) (iter : List String) :
    List (String × String) :=
  [("name", name), ("type", "liveupdate_contributor"),
   ("permissions", LiveContributorRelationship.handle_permissions iter)]

/-- C4: for every possible set-iteration order, `permissions=None` encodes
as `"+all"`, an empty list encodes as `""`, and `["manage", "settings"]`
encodes as a comma-join of some permutation of the `+manage`, `+settings`
tokens; both `invite` and `update` place exactly this encoding in their
request bodies. -/
theorem handle_permissions_encoding :
    (∀ iter, iter.Perm (LiveContributorRelationship.permsSet none) →
      LiveContributorRelationship.handle_permissions iter = "+all") ∧
    (∀ iter, iter.Perm (LiveContributorRelationship.permsSet (some [])) →
      LiveContributorRelationship.handle_permissions iter = "") ∧
    (∀ iter, iter.Perm (LiveContributorRelationship.permsSet
        (some ["manage", "settings"])) →
      ∃ l, l.Perm ["+manage", "+settings"] ∧
        LiveContributorRelationship.handle_permissions iter =
          String.intercalate "," l) ∧
    (∀ name iter, alookup (LiveContributorRelationship.inviteData name iter)
      "permissions" = some (LiveContributorRelationship.handle_permissions iter)) ∧
    (∀ name iter, alookup (LiveContributorRelationship.updateData name iter)
      "permissions" = some (LiveContributorRelationship.handle_permissions iter)) := by
  refine ⟨?_, ?_, ?_, ?_, ?_⟩
  · intro iter h
    rw [LiveContributorRelationship.permsSet] at h
    rw [List.perm_singleton.mp h]
    rfl
  · intro iter h
    rw [LiveContributorRelationship.permsSet] at h
    simp at h
    rw [h]
    rfl
  · intro iter h
    have hd : LiveContributorRelationship.permsSet (some ["manage", "settings"]) =
        ["manage", "settings"] := by decide
    rw [hd] at h
    refine ⟨iter.map (fun x => "+" ++ x), ?_, rfl⟩
    have hm := h.map (fun x => "+" ++ x)
    simpa using hm
  · intro name iter
    simp [LiveContributorRelationship.inviteData, alookup]
  · intro name iter
    simp [LiveContributorRelationship.updateData, alookup]

/-- C4 witness: the encoding evaluated at concrete iteration orders, one
per case of the claim. -/
theorem handle_permissions_encoding_witness :
    LiveContributorRelationship.handle_permissions ["all"] = "+all" ∧
    LiveContributorRelationship.handle_permissions [] = "" ∧
    ∃ l, l.Perm ["+manage", "+settings"] ∧
      LiveContributorRelationship.handle_permissions ["settings", "manage"] =
        String.intercalate "," l :=
  ⟨handle_permissions_encoding.1 ["all"] (by decide),
   handle_permissions_encoding.2.1 [] (by decide),
   handle_permissions_encoding.2.2.1 ["settings", "manage"] (by decide)⟩

/-- Python `dict.update`: keys of `base` keep their position with values
overridden by `extra`; new keys of `extra` are appended.  (`extra` models
the `**other_settings` kwargs dict, whose keys are necessarily distinct.) -/
def dictUpdate (base extra : List (String × Option String)) :
    List (String × Option String) :=
  base.map (fun p =>
    match extra.find? (fun q => q.1 = p.1) with
    | some q => q
    | none => p) ++
  extra.filter (fun q => !(base.any (fun p => p.1 = q.1)))

/-- Modelled from the spec: attribute access on the fresh stub thread
created inside `LiveThreadContribution.update`.  The first access to a
missing attribute triggers exactly one fetch that replaces the attribute
set with the full `server` payload (`RedditBase.__getattr__` is not under
`src/`); later accesses hit the populated set.  Returns the merged `data`
dict in settings order together with the number of fetches, or `none`
when a key is absent even from the fetched payload (`AttributeError`). -/
def mergeFields (server : List (String × String)) :
    List (String × Option String) → Bool → Option (List (String × String) × Nat)
  | [], _ => some ([], 0)
  | (k, some v) :: rest, fetched =>
      (mergeFields server rest fetched).map (fun dn => ((k, v) :: dn.1, dn.2))
  | (k, none) :: rest, fetched =>
      match alookup server k with
      | none => none
      | some v =>
          (mergeFields server rest true).map
            (fun dn => ((k, v) :: dn.1, dn.2 + (if fetched then 0 else 1)))

/-- The observable outcome of one `LiveThreadContribution.update` call:
how many fresh fetches it made, the bodies it posted, the attribute names
it reset on the owning thread, and the owning thread's cached attributes
afterwards. -/
structure UpdateOutcome where
  fetches : Nat
  posts : List (List (String × String))
  resetKeys : List String
  threadAttrs : List (String × String)
deriving DecidableEq, Repr

/-- `LiveThreadContribution.update(title, description, nsfw, resources,
**other_settings)`: builds the settings dict, returns immediately when
every value is `None`; otherwise fills each `None` from a fresh read of
the thread (`mergeFields`), posts the merged dict once, and calls
`self.thread._reset_attributes(*data.keys())`, which (modelled from the
spec) removes exactly the named attributes from the owning thread's
populated set `cache`. -/
def LiveThreadContribution.update (server cache : List (String × String))
    (title description nsfw resources : Option String)
    (other : List (String × Option String)) : Option UpdateOutcome :=
  let settings := dictUpdate
    [("title", title), ("description", description),
     ("nsfw", nsfw), ("resources", resources)] other
  if settings.all (fun p => p.2.isNone) then
    some { fetches := 0, posts := [], resetKeys := [], threadAttrs := cache }
  else
    match mergeFields server settings false with
    | none => none
    | some dn =>
        some { fetches := dn.2, posts := [dn.1],
               resetKeys := dn.1.map (fun p => p.1),
               threadAttrs := cache.filter
                 (fun p => !((dn.1.map (fun q => q.1)).contains p.1)) }

/-- C5: `update` with all four settings `None` and no extra keyword
settings is a no-op: zero fetches, zero posts, nothing reset, and the
owning thread's cached attributes unchanged. -/
theorem contribution_update_noop (server cache : List (String × String)) :
    LiveThreadContribution.update server cache none none none none [] =
      some { fetches := 0, posts := [], resetKeys := [],
             threadAttrs := cache } := rfl

/-- A concrete server-side settings payload for the update scenario. -/
def updateServer0 : List (String × String) :=
  [("title", "old"), ("description", "D"), ("nsfw", "false"), ("resources", "R")]

/-- A concrete cached attribute set on the in-memory owning thread. -/
def updateCache0 : List (String × String) :=
  [("title", "a"), ("description", "b")]

/-- C1 counterexample: `update(title="T")` resets the cached attributes for
every key of the merged posted payload — `title`, `description`, `nsfw`
and `resources` — not only for the explicitly submitted `title`; in
particular the owning thread's cached `description` is not left intact. -/
theorem contribution_update_title_counterexample :
    (LiveThreadContribution.update updateServer0 updateCache0
        (some "T") none none none []).map UpdateOutcome.resetKeys =
      some ["title", "description", "nsfw", "resources"] ∧
    (LiveThreadContribution.update updateServer0 updateCache0
        (some "T") none none none []).map UpdateOutcome.resetKeys ≠
      some ["title"] ∧
    (LiveThreadContribution.update updateServer0 updateCache0
        (some "T") none none none []).map UpdateOutcome.threadAttrs ≠
      some [("description", "b")] := by
  refine ⟨rfl, ?_, ?_⟩
  · intro h
    simp [LiveThreadContribution.update, dictUpdate, mergeFields,
      updateServer0, updateCache0, alookup] at h
  · intro h
    simp [LiveThreadContribution.update, dictUpdate, mergeFields,
      updateServer0, updateCache0, alookup] at h

/-- C1 amended: `update(title="T")` performs exactly one fresh fetch of the
thread's settings and exactly one post of the merged
`title/description/nsfw/resources` dict, and afterwards invalidates the
cached attributes for every key of that posted dict (not only the
explicitly submitted `title`), leaving attributes outside the posted dict
intact. -/
theorem contribution_update_title (server cache : List (String × String))
    (T d w r : String)
    (hd : alookup server "description" = some d)
    (hw : alookup server "nsfw" = some w)
    (hr : alookup server "resources" = some r) :
    LiveThreadContribution.update server cache (some T) none none none [] =
      some { fetches := 1,
             posts := [[("title", T), ("description", d), ("nsfw", w),
                        ("resources", r)]],
             resetKeys := ["title", "description", "nsfw", "resources"],
             threadAttrs := cache.filter (fun p =>
               !(["title", "description", "nsfw", "resources"].contains p.1)) } := by
  simp [LiveThreadContribution.update, dictUpdate, mergeFields, hd, hw, hr]

/-- C1 witness: the amended update contract evaluated at the concrete
server payload and thread cache. -/
theorem contribution_update_title_witness :
    LiveThreadContribution.update updateServer0 updateCache0
        (some "T") none none none [] =
      some { fetches := 1,
             posts := [[("title", "T"), ("description", "D"), ("nsfw", "false"),
                        ("resources", "R")]],
             resetKeys := ["title", "description", "nsfw", "resources"],
             threadAttrs := updateCache0.filter (fun p =>
               !(["title", "description", "nsfw", "resources"].contains p.1)) } :=
  contribution_update_title updateServer0 updateCache0 "T" "D" "false" "R"
    rfl rfl rfl

/-- One page of a listing endpoint: the decoded child payloads plus the
continuation token (`after`), `none` marking the final page. -/
structure Listing where
  children : List (List (String × UVal))
  after : Option String
deriving DecidableEq, Repr

/-- Modelled from the spec: `ListingGenerator` (`PaginatedFetcher`, not
under `src/`) with `limit=None`.  Each page fetch yields the page's items
in server order; pagination stops after the page whose `after` token is
null.  Returns all yielded payloads in order plus the number of page
fetches issued. -/
def genAll : List Listing → List (List (String × UVal)) × Nat
  | [] => ([], 0)
  | l :: rest =>
      match l.after with
      | none => (l.children, 1)
      | some _ =>
          let r := genAll rest
          (l.children ++ r.1, r.2 + 1)

/-- `LiveThread.updates(**generator_kwargs)`: iterates the
`ListingGenerator` over the thread's update listing and stamps each
yielded update with `update._thread = self` before handing it on. -/
def LiveThread.updates (t : LiveThread) (server : List Listing) :
    List LiveUpdate × Nat :=
  ((genAll server).1.map (fun d => { LiveUpdate.ofData d with thread := some t }),
   (genAll server).2)

/-- C6: over an endpoint serving two pages of 100 and 37 items, `updates`
with `limit=None` yields exactly 137 updates, exactly in the server's page
order (item `i` is built from payload `i` of the concatenated pages, so no
reordering or dedup occurs), issues exactly 2 page fetches, and every
yielded update is stamped with the requesting thread. -/
theorem liveThread_updates_pagination (t : LiveThread) (p1 p2 : Listing)
    (a : String) (h100 : p1.children.length = 100) (h37 : p2.children.length = 37)
    (ha : p1.after = some a) (hb : p2.after = none) :
    (LiveThread.updates t [p1, p2]).1.length = 137 ∧
    (LiveThread.updates t [p1, p2]).2 = 2 ∧
    (LiveThread.updates t [p1, p2]).1 = (p1.children ++ p2.children).map
      (fun d => { LiveUpdate.ofData d with thread := some t }) ∧
    (∀ u, u ∈ (LiveThread.updates t [p1, p2]).1 → u.thread = some t) := by
  have hgen : genAll [p1, p2] = (p1.children ++ p2.children, 2) := by
    simp [genAll, ha, hb]
  refine ⟨?_, ?_, ?_, ?_⟩
  · simp [LiveThread.updates, hgen, h100, h37]
  · simp [LiveThread.updates, hgen]
  · simp [LiveThread.updates, hgen]
  · intro u hu
    simp [LiveThread.updates, hgen, List.mem_map] at hu
    rcases hu with ⟨d, hd, heq⟩ | ⟨d, hd, heq⟩ <;> subst heq <;> rfl

/-- A concrete first page of 100 distinct payloads. -/
def page1w : Listing :=
  { children := (List.range 100).map (fun i => [("id", UVal.str (toString i))]),
    after := some "tok" }

/-- A concrete final page of 37 distinct payloads. -/
def page2w : Listing :=
  { children := (List.range 37).map (fun i => [("id", UVal.str ("b" ++ toString i))]),
    after := none }

/-- C6 witness: the pagination contract evaluated at the concrete
two-page server. -/
theorem liveThread_updates_pagination_witness :
    ((LiveThread.ofId "t1").updates [page1w, page2w]).1.length = 137 ∧
    ((LiveThread.ofId "t1").updates [page1w, page2w]).2 = 2 :=
  ⟨(liveThread_updates_pagination (LiveThread.ofId "t1") page1w page2w "tok"
      (by simp [page1w]) (by simp [page2w]) rfl rfl).1,
   (liveThread_updates_pagination (LiveThread.ofId "t1") page1w page2w "tok"
      (by simp [page1w]) (by simp [page2w]) rfl rfl).2.1⟩
